import Mathlib

/-!
Formal model of the mesh-based anatomical measurement and augmentation
pipeline of a TypeScript repository.  Vectors are modelled as triples of
real numbers (the idealisation of the JavaScript float arithmetic), mesh
attribute buffers as optional lists, and the measurement, volume and
deformation routines are translated function by function from the
TypeScript sources.  The theorems at the end of the file settle the
frozen specification claims against these definitions.
-/

noncomputable section

/-- Model of a THREE.Vector3: a triple of real coordinates. -/
structure Vec3 where
  x : ℝ
  y : ℝ
  z : ℝ

namespace Vec3

/-- Component-wise addition (THREE.Vector3.add / addVectors). -/
def add (v w : Vec3) : Vec3 := ⟨v.x + w.x, v.y + w.y, v.z + w.z⟩

/-- Component-wise subtraction (THREE.Vector3.sub / subVectors). -/
def sub (v w : Vec3) : Vec3 := ⟨v.x - w.x, v.y - w.y, v.z - w.z⟩

/-- Scalar multiplication (THREE.Vector3.multiplyScalar). -/
def smul (c : ℝ) (v : Vec3) : Vec3 := ⟨c * v.x, c * v.y, c * v.z⟩

/-- Dot product (THREE.Vector3.dot). -/
def dot (v w : Vec3) : ℝ := v.x * w.x + v.y * w.y + v.z * w.z

/-- Cross product (THREE.Vector3.crossVectors). -/
def cross (v w : Vec3) : Vec3 :=
  ⟨v.y * w.z - v.z * w.y, v.z * w.x - v.x * w.z, v.x * w.y - v.y * w.x⟩

/-- Euclidean length (THREE.Vector3.length). -/
def length (v : Vec3) : ℝ := Real.sqrt (v.dot v)

/-- Euclidean distance between two points (THREE.Vector3.distanceTo). -/
def distanceTo (v w : Vec3) : ℝ := (v.sub w).length

/-- THREE.Vector3.normalize: divides by the length, and leaves the zero
vector unchanged (THREE divides by `length or 1` in that case). -/
def normalize (v : Vec3) : Vec3 :=
  if v.length = 0 then v else smul (1 / v.length) v

instance : Add Vec3 := ⟨add⟩

instance : Sub Vec3 := ⟨sub⟩

/-- Bridge to the Mathlib Euclidean space on three coordinates. -/
def toEuc (v : Vec3) : EuclideanSpace ℝ (Fin 3) := ![v.x, v.y, v.z]

theorem length_eq_sqrt (v : Vec3) : v.length = Real.sqrt (v.x ^ 2 + v.y ^ 2 + v.z ^ 2) := by
  unfold length dot
  ring_nf

theorem distanceTo_eq_dist (v w : Vec3) : v.distanceTo w = dist (toEuc v) (toEuc w) := by
  rw [distanceTo, length_eq_sqrt, EuclideanSpace.dist_eq]
  rw [Fin.sum_univ_three]
  simp only [toEuc, Matrix.cons_val_zero, Matrix.cons_val_one, Matrix.head_cons,
    Matrix.cons_val_two, Matrix.tail_cons, Real.dist_eq, sq_abs, sub]

theorem distanceTo_nonneg (v w : Vec3) : 0 ≤ v.distanceTo w := by
  rw [distanceTo_eq_dist]; exact dist_nonneg

theorem distanceTo_comm (v w : Vec3) : v.distanceTo w = w.distanceTo v := by
  rw [distanceTo_eq_dist, distanceTo_eq_dist, dist_comm]

theorem distanceTo_self (v : Vec3) : v.distanceTo v = 0 := by
  rw [distanceTo_eq_dist, dist_self]

theorem distanceTo_triangle (u v w : Vec3) :
    u.distanceTo w ≤ u.distanceTo v + v.distanceTo w := by
  rw [distanceTo_eq_dist, distanceTo_eq_dist, distanceTo_eq_dist]
  exact dist_triangle _ _ _

end Vec3

/-- Anatomical side tag, the `left` / `right` string union of the source. -/
inductive Side where
  | left
  | right
  deriving DecidableEq

/-- Model of the NippleMarker interface of manualMeasurements.ts. -/
structure NippleMarker where
  position : Vec3
  id : Side

/-- Model of the BreastContour interface of manualMeasurements.ts. -/
structure BreastContour where
  id : Side
  vertices : List Vec3
  center : Vec3
  radius : ℝ

/-- Model of the ManualMeasurements interface: the annotation inputs, each
possibly absent (`null` in the source). -/
structure ManualMeasurements where
  leftContour : Option BreastContour
  rightContour : Option BreastContour
  leftNipple : Option NippleMarker
  rightNipple : Option NippleMarker
  nippleToNippleDistance : Option ℝ

/-- Model of the CalculatedMeasurements interface of manualMeasurements.ts. -/
structure CalculatedMeasurements where
  nippleToNippleDistance : ℝ
  leftBreastDiameter : ℝ
  rightBreastDiameter : ℝ
  leftBreastCircumference : ℝ
  rightBreastCircumference : ℝ
  projectionLeft : ℝ
  projectionRight : ℝ
  symmetryRatio : ℝ

namespace ManualMeasurementCalculator

/-- Largest distance from `v` to any point of the list: the inner loop of
calculateBreastDiameter (the running maximum starts at 0). -/
def maxDistFrom (v : Vec3) : List Vec3 → ℝ
  | [] => 0
  | w :: rest => max (v.distanceTo w) (maxDistFrom v rest)

/-- Largest pairwise distance over the list: the double loop of
calculateBreastDiameter (running maximum over all pairs `i < j`, starting at 0). -/
def maxPairwiseDist : List Vec3 → ℝ
  | [] => 0
  | v :: rest => max (maxDistFrom v rest) (maxPairwiseDist rest)

/-- ManualMeasurementCalculator.calculateBreastDiameter: fewer than 3
vertices gives 0, otherwise the maximum pairwise distance, converted to
centimetres by the factor 100. -/
def calculateBreastDiameter (contour : BreastContour) : ℝ :=
  if contour.vertices.length < 3 then 0
  else maxPairwiseDist contour.vertices * 100

/-- Open polyline length: distance from `v` through the successive points
of the list. -/
def pathLength : Vec3 → List Vec3 → ℝ
  | _, [] => 0
  | v, w :: rest => v.distanceTo w + pathLength w rest

/-- ManualMeasurementCalculator.calculateBreastCircumference: fewer than 3
vertices gives 0, otherwise the sum of consecutive distances around the
contour, the last point wrapping to the first, converted to centimetres. -/
def calculateBreastCircumference (contour : BreastContour) : ℝ :=
  if contour.vertices.length < 3 then 0
  else
    (match contour.vertices with
     | [] => 0
     | v :: rest => pathLength v (rest ++ [v])) * 100

/-- ManualMeasurementCalculator.calculateProjection: distance from the
nipple to the contour center, converted to centimetres. -/
def calculateProjection (contour : BreastContour) (nipple : NippleMarker) : ℝ :=
  nipple.position.distanceTo contour.center * 100

/-- ManualMeasurementCalculator.calculateSymmetryRatio. -/
def calculateSymmetryRatio (leftDiameter rightDiameter : ℝ) : ℝ :=
  if leftDiameter = 0 ∨ rightDiameter = 0 then 0
  else min leftDiameter rightDiameter / max leftDiameter rightDiameter * 100

/-- ManualMeasurementCalculator.calculateAllMeasurements: returns `none`
when any of the five annotation inputs is JavaScript-falsy (absent, or an
entered distance equal to 0), otherwise the populated record. -/
def calculateAllMeasurements (a : ManualMeasurements) : Option CalculatedMeasurements :=
  match a.leftContour, a.rightContour, a.leftNipple, a.rightNipple, a.nippleToNippleDistance with
  | some lc, some rc, some ln, some rn, some d =>
    if d = 0 then none
    else
      some
        { nippleToNippleDistance := d
          leftBreastDiameter := calculateBreastDiameter lc
          rightBreastDiameter := calculateBreastDiameter rc
          leftBreastCircumference := calculateBreastCircumference lc
          rightBreastCircumference := calculateBreastCircumference rc
          projectionLeft := calculateProjection lc ln
          projectionRight := calculateProjection rc rn
          symmetryRatio := calculateSymmetryRatio (calculateBreastDiameter lc) (calculateBreastDiameter rc) }
  | _, _, _, _, _ => none

end ManualMeasurementCalculator

/-- Model of a THREE.BufferGeometry restricted to the data the volume
routines read: an optional position attribute (list of vertices) and an
optional triangle index buffer (flat list of vertex indices). -/
structure BufferGeometry where
  position : Option (List Vec3)
  index : Option (List ℕ)

/-- Attribute access `positionAttribute.getX(i)` and friends: reading a
vertex of the position buffer by index. -/
def getVert (ps : List Vec3) (i : ℕ) : Vec3 := ps.getD i ⟨0, 0, 0⟩

/-- The triangles of a flat index buffer: consecutive triples, as walked
by the `i += 3` loops of both volume routines. -/
def chunk3 : List ℕ → List (ℕ × ℕ × ℕ)
  | a :: b :: c :: rest => (a, b, c) :: chunk3 rest
  | _ => []

namespace BreastMeshExtractor

/-- Model of the BreastVolumeCalculation interface. -/
structure BreastVolumeCalculation where
  leftVolume : ℝ
  rightVolume : ℝ
  totalVolume : ℝ
  asymmetryRatio : ℝ

/-- One loop iteration of calculateMeshVolume: the triangle centroid
`(v1+v2+v3)/3` dotted with the non-unit normal `(v2-v1) x (v3-v1)`. -/
def divergenceTerm (ps : List Vec3) (a b c : ℕ) : ℝ :=
  let v1 := getVert ps a
  let v2 := getVert ps b
  let v3 := getVert ps c
  let centroid := Vec3.smul (1 / 3) ((v1.add v2).add v3)
  let normal := Vec3.cross (v2.sub v1) (v3.sub v1)
  centroid.dot normal

/-- The accumulation loop of calculateMeshVolume over the index buffer. -/
def divergenceSum (ps : List Vec3) : List ℕ → ℝ
  | a :: b :: c :: rest => divergenceTerm ps a b c + divergenceSum ps rest
  | _ => 0

/-- BreastMeshExtractor.calculateMeshVolume: 0 when the position attribute
or the index buffer is absent, otherwise the absolute value of the
accumulated divergence sum divided by 6. -/
def calculateMeshVolume (geometry : BufferGeometry) : ℝ :=
  match geometry.position, geometry.index with
  | some ps, some idx => |divergenceSum ps idx| / 6
  | _, _ => 0

/-- BreastMeshExtractor.calculateBreastVolumes.  The optional extracted
meshes are modelled by their two volumes.  `round` is the JavaScript
Math.round, the floor of `x + 1/2`. -/
def calculateBreastVolumes (leftDiameter rightDiameter leftProjection rightProjection : ℝ)
    (extractedMeshes : Option (ℝ × ℝ)) : BreastVolumeCalculation :=
  let volumes : ℝ × ℝ :=
    match extractedMeshes with
    | some (lv, rv) => (lv * 1000000, rv * 1000000)
    | none =>
      let leftRadius := leftDiameter / 2
      let rightRadius := rightDiameter / 2
      ((4 / 3) * Real.pi * leftRadius * leftRadius * leftProjection,
       (4 / 3) * Real.pi * rightRadius * rightRadius * rightProjection)
  let leftVolume := volumes.1
  let rightVolume := volumes.2
  let totalVolume := leftVolume + rightVolume
  let asymmetryRatio := |leftVolume - rightVolume| / max leftVolume rightVolume * 100
  { leftVolume := (round leftVolume : ℤ)
    rightVolume := (round rightVolume : ℤ)
    totalVolume := (round totalVolume : ℤ)
    asymmetryRatio := ((round (asymmetryRatio * 10) : ℤ) : ℝ) / 10 }

end BreastMeshExtractor

namespace BreastPhysicsEngine

/-- One loop iteration of calculateCurrentVolume: the signed tetrahedron
volume `v1 . (v2 x v3) / 6`. -/
def tetraTerm (ps : List Vec3) (a b c : ℕ) : ℝ :=
  let v1 := getVert ps a
  let v2 := getVert ps b
  let v3 := getVert ps c
  v1.dot (Vec3.cross v2 v3) / 6

/-- The accumulation loop of calculateCurrentVolume over the index buffer. -/
def tetraSum (ps : List Vec3) : List ℕ → ℝ
  | a :: b :: c :: rest => tetraTerm ps a b c + tetraSum ps rest
  | _ => 0

/-- BreastPhysicsEngine.calculateCurrentVolume.  The source dereferences
`geometry.attributes.position.array` unconditionally, so an absent
position attribute is a thrown TypeError, modelled as `none`; an absent
index buffer returns 0; otherwise the absolute accumulated sum scaled by
1000000. -/
def calculateCurrentVolume (geometry : BufferGeometry) : Option ℝ :=
  match geometry.position with
  | none => none
  | some ps =>
    match geometry.index with
    | none => some 0
    | some idx => some (|tetraSum ps idx| * 1000000)

end BreastPhysicsEngine

namespace BreastAugmentationSimulator

/-- Implant shape union of the simulator module. -/
inductive ImplantType where
  | round
  | teardrop
  | gummy
  deriving DecidableEq

/-- Implant profile union of the simulator module. -/
inductive ImplantProfile where
  | low
  | moderate
  | high
  | ultraHigh
  deriving DecidableEq

/-- Model of the AugmentationParameters interface of the simulator
module (documented ranges: sizeMultiplier 0.5 to 3.0, projectionMultiplier
0.5 to 2.5, fullness 0.5 to 1.5, adjustments -0.2 to 0.2). -/
structure AugmentationParameters where
  sizeMultiplier : ℝ
  projectionMultiplier : ℝ
  upperPoleFullness : ℝ
  lowerPoleFullness : ℝ
  heightAdjustment : ℝ
  medialAdjustment : ℝ
  implantType : ImplantType
  implantProfile : ImplantProfile

/-- Model of the AugmentationResult interface. -/
structure AugmentationResult where
  originalVolume : ℝ
  augmentedVolume : ℝ
  volumeIncrease : ℝ
  newCupSize : String
  projectionIncrease : ℝ

/-- BreastAugmentationSimulator.calculateCupSize: the cup label step
function over the augmented volume. -/
def calculateCupSize (volume : ℝ) : String :=
  if volume < 150 then "A"
  else if volume < 250 then "B"
  else if volume < 350 then "C"
  else if volume < 450 then "D"
  else if volume < 550 then "DD"
  else if volume < 650 then "E"
  else if volume < 750 then "F"
  else if volume < 850 then "G"
  else "H+"

/-- BreastAugmentationSimulator.calculateAugmentationResults. -/
def calculateAugmentationResults (measurements : CalculatedMeasurements)
    (params : AugmentationParameters) (side : Side) : AugmentationResult :=
  let diameter := match side with
    | Side.left => measurements.leftBreastDiameter
    | Side.right => measurements.rightBreastDiameter
  let projection := match side with
    | Side.left => measurements.projectionLeft
    | Side.right => measurements.projectionRight
  let originalRadius := diameter / 2
  let originalVolume := (4 / 3) * Real.pi * originalRadius * originalRadius * projection
  let newRadius := originalRadius * params.sizeMultiplier
  let newProjection := projection * params.projectionMultiplier
  let shapeMultiplier := (params.upperPoleFullness + params.lowerPoleFullness) / 2
  let augmentedVolume := (4 / 3) * Real.pi * newRadius * newRadius * newProjection * shapeMultiplier
  let volumeIncrease := augmentedVolume - originalVolume
  let projectionIncrease := newProjection - projection
  { originalVolume := (round originalVolume : ℤ)
    augmentedVolume := (round augmentedVolume : ℤ)
    volumeIncrease := (round volumeIncrease : ℤ)
    newCupSize := calculateCupSize augmentedVolume
    projectionIncrease := ((round (projectionIncrease * 10) : ℤ) : ℝ) / 10 }

/-- BreastAugmentationSimulator.applyShapeModifications: every vertex of
the geometry position buffer has its y coordinate scaled by the upper or
lower pole fullness according to the sign test `y > 0`, and its z
coordinate scaled by the projection multiplier. -/
def applyShapeModifications (params : AugmentationParameters)
    (positions : List Vec3) : List Vec3 :=
  positions.map fun v =>
    ⟨v.x,
     if 0 < v.y then v.y * params.upperPoleFullness else v.y * params.lowerPoleFullness,
     v.z * params.projectionMultiplier⟩

end BreastAugmentationSimulator

namespace MeshManipulator

/-- Implant shape union of the manipulator module. -/
inductive ImplantType where
  | round
  | teardrop
  deriving DecidableEq

/-- Projection level union of the manipulator module. -/
inductive ProjectionLevel where
  | low
  | moderate
  | high
  deriving DecidableEq

/-- Placement level union of the manipulator module. -/
inductive PlacementLevel where
  | subglandular
  | submuscular
  deriving DecidableEq

/-- Model of the AugmentationParameters interface of the manipulator
module (implantSize is in cc). -/
structure AugmentationParameters where
  implantSize : ℝ
  implantType : ImplantType
  projectionLevel : ProjectionLevel
  placementLevel : PlacementLevel

/-- The implant dimensions record produced by calculateImplantDimensions. -/
structure ImplantDimensions where
  width : ℝ
  height : ℝ
  projection : ℝ

/-- MeshManipulator.calculateImplantDimensions: a rough cube-root
conversion from cc to linear dimensions. -/
def calculateImplantDimensions (sizeCC : ℝ) : ImplantDimensions :=
  let baseRadius := (sizeCC / 523.6) ^ ((1 : ℝ) / 3)
  { width := baseRadius * 0.8
    height := baseRadius * 0.9
    projection := baseRadius * 0.6 }

/-- MeshManipulator.getProjectionMultiplier. -/
def getProjectionMultiplier : ProjectionLevel → ℝ
  | ProjectionLevel.low => 0.7
  | ProjectionLevel.moderate => 1.0
  | ProjectionLevel.high => 1.3

/-- MeshManipulator.calculateDeformationVector. -/
def calculateDeformationVector (vertexPosition nipplePosition : Vec3)
    (implantDimensions : ImplantDimensions) (augmentationParams : AugmentationParameters)
    (influenceFactor : ℝ) : Vec3 :=
  let toNipple := nipplePosition.sub vertexPosition
  let distance := toNipple.length
  if distance = 0 then
    ⟨0, 0, implantDimensions.projection * influenceFactor⟩
  else
    let direction := toNipple.normalize
    let fr : ℝ × ℝ :=
      match augmentationParams.implantType with
      | ImplantType.round =>
        (implantDimensions.projection * influenceFactor * 0.8,
         implantDimensions.width * influenceFactor * 0.3)
      | ImplantType.teardrop =>
        let verticalFactor := max 0 (-direction.y)
        (implantDimensions.projection * influenceFactor * (0.5 + verticalFactor * 0.5),
         implantDimensions.width * influenceFactor * 0.25)
    let forwardVector : Vec3 := ⟨0, 0, fr.1⟩
    let radialVector : Vec3 := ⟨direction.x * -fr.2, direction.y * -fr.2, 0⟩
    forwardVector.add radialVector

/-- The influence sphere radius computed by deformBreastRegion. -/
def influenceRadius (implantDimensions : ImplantDimensions) : ℝ :=
  max implantDimensions.width implantDimensions.height * 1.2

/-- The loop body of MeshManipulator.deformBreastRegion for one region
vertex: inside the influence radius the vertex is moved by the deformation
vector at influence factor `(1 - distance/influenceRadius)^2`, outside it
the position is left unchanged. -/
def deformVertex (nipplePosition : Vec3) (implantDimensions : ImplantDimensions)
    (augmentationParams : AugmentationParameters) (v : Vec3) : Vec3 :=
  let distance := v.distanceTo nipplePosition
  if distance < influenceRadius implantDimensions then
    let influenceFactor := (1 - distance / influenceRadius implantDimensions) ^ 2
    v.add (calculateDeformationVector v nipplePosition implantDimensions
      augmentationParams influenceFactor)
  else v

/-- MeshManipulator.deformBreastRegion: the per-vertex update applied to
every vertex position of the breast region. -/
def deformBreastRegion (regionVertices : List Vec3) (nipplePosition : Vec3)
    (implantDimensions : ImplantDimensions)
    (augmentationParams : AugmentationParameters) : List Vec3 :=
  regionVertices.map (deformVertex nipplePosition implantDimensions augmentationParams)

end MeshManipulator

namespace MeshAnalyzer

/-- Model of the MeshVertex record of meshAnalysis.ts. -/
structure MeshVertex where
  position : Vec3
  normal : Vec3
  index : ℕ

/-- Mesh geometry as read by analyzeMeshGeometry: optional position and
normal vertex attributes. -/
structure MeshGeometry where
  position : Option (List Vec3)
  normal : Option (List Vec3)

/-- MeshAnalyzer.analyzeMeshGeometry: throws when the position or normal
attribute is absent (JavaScript truthiness test on the attribute objects),
otherwise builds one MeshVertex record per vertex index. -/
def analyzeMeshGeometry (geometry : MeshGeometry) : Except String (List MeshVertex) :=
  match geometry.position, geometry.normal with
  | some ps, some ns =>
    Except.ok ((List.range ps.length).map fun i =>
      { position := getVert ps i, normal := getVert ns i, index := i })
  | _, _ => Except.error "Mesh missing required position or normal attributes"

end MeshAnalyzer

/-- Induction principle following the three-indices-at-a-time walk of the
volume accumulation loops. -/
def tripleInduction {P : List ℕ → Prop} (h0 : P []) (h1 : ∀ a, P [a]) (h2 : ∀ a b, P [a, b])
    (hstep : ∀ a b c rest, P rest → P (a :: b :: c :: rest)) : ∀ l, P l
  | [] => h0
  | [a] => h1 a
  | [a, b] => h2 a b
  | a :: b :: c :: rest => hstep a b c rest (tripleInduction h0 h1 h2 hstep rest)

/-- C5: the symmetry ratio equals `min(l,r)/max(l,r)*100` when both
diameters are nonzero and 0 when either diameter is 0, and it takes the
values 100, 50 and 0 at the diameter pairs (10,10), (5,10) and (0,10). -/
theorem C5_symmetry_ratio :
    (∀ l r : ℝ, l ≠ 0 → r ≠ 0 →
      ManualMeasurementCalculator.calculateSymmetryRatio l r = min l r / max l r * 100) ∧
    (∀ l r : ℝ, l = 0 ∨ r = 0 → ManualMeasurementCalculator.calculateSymmetryRatio l r = 0) ∧
    ManualMeasurementCalculator.calculateSymmetryRatio 10 10 = 100 ∧
    ManualMeasurementCalculator.calculateSymmetryRatio 5 10 = 50 ∧
    ManualMeasurementCalculator.calculateSymmetryRatio 0 10 = 0 := by
  refine ⟨?_, ?_, ?_, ?_, ?_⟩
  · intro l r hl hr
    rw [ManualMeasurementCalculator.calculateSymmetryRatio, if_neg]
    tauto
  · intro l r h
    rw [ManualMeasurementCalculator.calculateSymmetryRatio, if_pos h]
  · rw [ManualMeasurementCalculator.calculateSymmetryRatio, if_neg (by norm_num)]
    norm_num
  · rw [ManualMeasurementCalculator.calculateSymmetryRatio, if_neg (by norm_num)]
    rw [show max (5 : ℝ) 10 = 10 by norm_num, show min (5 : ℝ) 10 = 5 by norm_num]
    norm_num
  · rw [ManualMeasurementCalculator.calculateSymmetryRatio, if_pos (by norm_num)]

/-- Witness for C5 at the concrete diameters 5 and 10. -/
theorem C5_witness :
    ManualMeasurementCalculator.calculateSymmetryRatio 5 10 = min 5 10 / max 5 10 * 100 :=
  C5_symmetry_ratio.1 5 10 (by norm_num) (by norm_num)

/-- C10: the combined manual-measurement calculation yields none exactly
when one of the five annotation inputs is absent or the entered distance
is 0, and yields the fully populated record otherwise. -/
theorem C10_all_measurements :
    (∀ a : ManualMeasurements,
      ManualMeasurementCalculator.calculateAllMeasurements a = none ↔
        (a.leftContour = none ∨ a.rightContour = none ∨ a.leftNipple = none ∨
         a.rightNipple = none ∨ a.nippleToNippleDistance = none ∨
         a.nippleToNippleDistance = some 0)) ∧
    (∀ lc rc ln rn (d : ℝ), d ≠ 0 →
      ManualMeasurementCalculator.calculateAllMeasurements
          ⟨some lc, some rc, some ln, some rn, some d⟩ =
        some
          { nippleToNippleDistance := d
            leftBreastDiameter := ManualMeasurementCalculator.calculateBreastDiameter lc
            rightBreastDiameter := ManualMeasurementCalculator.calculateBreastDiameter rc
            leftBreastCircumference := ManualMeasurementCalculator.calculateBreastCircumference lc
            rightBreastCircumference := ManualMeasurementCalculator.calculateBreastCircumference rc
            projectionLeft := ManualMeasurementCalculator.calculateProjection lc ln
            projectionRight := ManualMeasurementCalculator.calculateProjection rc rn
            symmetryRatio := ManualMeasurementCalculator.calculateSymmetryRatio
              (ManualMeasurementCalculator.calculateBreastDiameter lc)
              (ManualMeasurementCalculator.calculateBreastDiameter rc) }) := by
  constructor
  · intro a
    obtain ⟨lc, rc, ln, rn, nd⟩ := a
    cases lc <;> cases rc <;> cases ln <;> cases rn <;> cases nd <;>
      simp [ManualMeasurementCalculator.calculateAllMeasurements]
  · intro lc rc ln rn d hd
    rw [ManualMeasurementCalculator.calculateAllMeasurements]
    simp [hd]

/-- Witness for C10 on a fully supplied annotation set with an entered
distance of 5. -/
theorem C10_witness :
    ManualMeasurementCalculator.calculateAllMeasurements
        ⟨some ⟨Side.left, [], ⟨0, 0, 0⟩, 0⟩, some ⟨Side.right, [], ⟨0, 0, 0⟩, 0⟩,
         some ⟨⟨0, 0, 0⟩, Side.left⟩, some ⟨⟨0, 0, 0⟩, Side.right⟩, some 5⟩ =
      some
        { nippleToNippleDistance := 5
          leftBreastDiameter := ManualMeasurementCalculator.calculateBreastDiameter
            ⟨Side.left, [], ⟨0, 0, 0⟩, 0⟩
          rightBreastDiameter := ManualMeasurementCalculator.calculateBreastDiameter
            ⟨Side.right, [], ⟨0, 0, 0⟩, 0⟩
          leftBreastCircumference := ManualMeasurementCalculator.calculateBreastCircumference
            ⟨Side.left, [], ⟨0, 0, 0⟩, 0⟩
          rightBreastCircumference := ManualMeasurementCalculator.calculateBreastCircumference
            ⟨Side.right, [], ⟨0, 0, 0⟩, 0⟩
          projectionLeft := ManualMeasurementCalculator.calculateProjection
            ⟨Side.left, [], ⟨0, 0, 0⟩, 0⟩ ⟨⟨0, 0, 0⟩, Side.left⟩
          projectionRight := ManualMeasurementCalculator.calculateProjection
            ⟨Side.right, [], ⟨0, 0, 0⟩, 0⟩ ⟨⟨0, 0, 0⟩, Side.right⟩
          symmetryRatio := ManualMeasurementCalculator.calculateSymmetryRatio
            (ManualMeasurementCalculator.calculateBreastDiameter ⟨Side.left, [], ⟨0, 0, 0⟩, 0⟩)
            (ManualMeasurementCalculator.calculateBreastDiameter ⟨Side.right, [], ⟨0, 0, 0⟩, 0⟩) } :=
  C10_all_measurements.2 _ _ _ _ 5 (by norm_num)

/-- C8 counterexample: a zero-vertex mesh whose position and normal
attributes are present (but hold no vertices) is analyzed successfully
into an empty vertex list, not rejected with the precondition error. -/
theorem C8_counterexample :
    MeshAnalyzer.analyzeMeshGeometry ⟨some [], some []⟩ = Except.ok [] := by
  simp [MeshAnalyzer.analyzeMeshGeometry]

/-- C8 (amended): the geometry-analysis step raises the documented
missing-required-geometry-attribute error exactly when the position or the
normal attribute is absent; when both attributes are present it returns
one vertex record per index, even when there are zero vertices. -/
theorem C8_missing_attribute_amended :
    (∀ g : MeshAnalyzer.MeshGeometry, g.position = none ∨ g.normal = none →
      MeshAnalyzer.analyzeMeshGeometry g =
        Except.error "Mesh missing required position or normal attributes") ∧
    (∀ ps ns, MeshAnalyzer.analyzeMeshGeometry ⟨some ps, some ns⟩ =
      Except.ok ((List.range ps.length).map fun i =>
        { position := getVert ps i, normal := getVert ns i, index := i })) := by
  constructor
  · rintro ⟨p, n⟩ h
    rcases h with h | h
    · subst h
      cases n <;> rfl
    · subst h
      cases p <;> rfl
  · intro ps ns
    rfl

/-- Witness for C8 (amended) at a geometry with no attributes at all. -/
theorem C8_witness :
    MeshAnalyzer.analyzeMeshGeometry ⟨none, none⟩ =
      Except.error "Mesh missing required position or normal attributes" :=
  C8_missing_attribute_amended.1 ⟨none, none⟩ (Or.inl rfl)

/-- The divergence accumulation loop equals the sum of the per-triangle
terms over the chunked triangle list. -/
theorem divergenceSum_eq_sum (ps : List Vec3) (idx : List ℕ) :
    BreastMeshExtractor.divergenceSum ps idx =
      ((chunk3 idx).map fun t => BreastMeshExtractor.divergenceTerm ps t.1 t.2.1 t.2.2).sum := by
  induction idx using tripleInduction with
  | h0 => simp [BreastMeshExtractor.divergenceSum, chunk3]
  | h1 a => simp [BreastMeshExtractor.divergenceSum, chunk3]
  | h2 a b => simp [BreastMeshExtractor.divergenceSum, chunk3]
  | hstep a b c rest ih => simp [BreastMeshExtractor.divergenceSum, chunk3, ih]

/-- Per-triangle identity: the centroid dotted with the edge cross product
equals the scalar triple product of the three vertices. -/
theorem divergenceTerm_eq_triple (ps : List Vec3) (a b c : ℕ) :
    BreastMeshExtractor.divergenceTerm ps a b c =
      (getVert ps a).dot (Vec3.cross (getVert ps b) (getVert ps c)) := by
  simp only [BreastMeshExtractor.divergenceTerm, Vec3.dot, Vec3.cross, Vec3.add, Vec3.sub,
    Vec3.smul]
  ring

/-- The tetrahedron accumulation loop equals one sixth of the divergence
accumulation loop. -/
theorem tetraSum_eq_divergenceSum_div (ps : List Vec3) (idx : List ℕ) :
    BreastPhysicsEngine.tetraSum ps idx = BreastMeshExtractor.divergenceSum ps idx / 6 := by
  induction idx using tripleInduction with
  | h0 => simp [BreastPhysicsEngine.tetraSum, BreastMeshExtractor.divergenceSum]
  | h1 a => simp [BreastPhysicsEngine.tetraSum, BreastMeshExtractor.divergenceSum]
  | h2 a b => simp [BreastPhysicsEngine.tetraSum, BreastMeshExtractor.divergenceSum]
  | hstep a b c rest ih =>
    simp only [BreastPhysicsEngine.tetraSum, BreastMeshExtractor.divergenceSum, ih,
      BreastPhysicsEngine.tetraTerm, divergenceTerm_eq_triple]
    ring

/-- C1: with both attributes present the mesh-integration volume routine
returns the absolute value of the summed centroid-dot-normal terms over
the indexed triangles, divided by 6; with either attribute absent it
returns 0. -/
theorem C1_mesh_volume_formula :
    (∀ (ps : List Vec3) (idx : List ℕ),
      BreastMeshExtractor.calculateMeshVolume ⟨some ps, some idx⟩ =
        |((chunk3 idx).map fun t =>
            (Vec3.smul (1 / 3) (((getVert ps t.1).add (getVert ps t.2.1)).add (getVert ps t.2.2))).dot
              (Vec3.cross ((getVert ps t.2.1).sub (getVert ps t.1))
                ((getVert ps t.2.2).sub (getVert ps t.1)))).sum| / 6) ∧
    (∀ g : BufferGeometry, g.position = none ∨ g.index = none →
      BreastMeshExtractor.calculateMeshVolume g = 0) := by
  constructor
  · intro ps idx
    show |BreastMeshExtractor.divergenceSum ps idx| / 6 = _
    rw [divergenceSum_eq_sum]
    rfl
  · rintro ⟨p, i⟩ h
    rcases h with h | h
    · subst h
      cases i <;> rfl
    · subst h
      cases p <;> rfl

/-- Witness for C1 at a geometry with no attributes at all. -/
theorem C1_witness : BreastMeshExtractor.calculateMeshVolume ⟨none, none⟩ = 0 :=
  C1_mesh_volume_formula.2 ⟨none, none⟩ (Or.inl rfl)

/-- C9: on every geometry carrying both a position attribute and an index
buffer, the physics-engine volume equals exactly 1000000 times the
extraction-module volume. -/
theorem C9_volume_routines_agree (ps : List Vec3) (idx : List ℕ) :
    BreastPhysicsEngine.calculateCurrentVolume ⟨some ps, some idx⟩ =
      some (1000000 * BreastMeshExtractor.calculateMeshVolume ⟨some ps, some idx⟩) := by
  show some (|BreastPhysicsEngine.tetraSum ps idx| * 1000000) =
    some (1000000 * (|BreastMeshExtractor.divergenceSum ps idx| / 6))
  rw [tetraSum_eq_divergenceSum_div, abs_div]
  norm_num
  ring

/-- C4: the shape-modification pass of the augmentation engine is the
identity on every vertex when both fullness parameters and the projection
multiplier are 1 and the remaining parameters are at their neutral
defaults. -/
theorem C4_neutral_identity (params : BreastAugmentationSimulator.AugmentationParameters)
    (positions : List Vec3)
    (hs : params.sizeMultiplier = 1) (hp : params.projectionMultiplier = 1)
    (hu : params.upperPoleFullness = 1) (hl : params.lowerPoleFullness = 1)
    (hh : params.heightAdjustment = 0) (hm : params.medialAdjustment = 0) :
    BreastAugmentationSimulator.applyShapeModifications params positions = positions := by
  have hv : ∀ v : Vec3,
      (⟨v.x, if 0 < v.y then v.y * params.upperPoleFullness else v.y * params.lowerPoleFullness,
        v.z * params.projectionMultiplier⟩ : Vec3) = v := by
    intro v
    rw [hp, hu, hl]
    simp
  rw [BreastAugmentationSimulator.applyShapeModifications]
  exact (List.map_congr_left fun a _ => hv a).trans (List.map_id positions)

/-- Witness for C4 at the neutral parameter record and a one-vertex mesh. -/
theorem C4_witness :
    BreastAugmentationSimulator.applyShapeModifications
        ⟨1, 1, 1, 1, 0, 0, BreastAugmentationSimulator.ImplantType.round,
         BreastAugmentationSimulator.ImplantProfile.moderate⟩ [⟨1, 2, 3⟩] = [⟨1, 2, 3⟩] :=
  C4_neutral_identity _ _ rfl rfl rfl rfl rfl rfl

/-- C2: with no extracted meshes supplied, the closed-form volume
calculation returns the rounded ellipsoid volumes `(4/3) pi r^2 projection`
with `r` half the diameter, the rounded total of the two per-side volumes,
and the asymmetry ratio `|left - right| / max(left, right) * 100` rounded
to one decimal; precondition: at least one per-side volume is nonzero. -/
theorem C2_closed_form_volumes (ld rd lp rp : ℝ)
    (h : (4 / 3) * Real.pi * (ld / 2) ^ 2 * lp ≠ 0 ∨
         (4 / 3) * Real.pi * (rd / 2) ^ 2 * rp ≠ 0) :
    BreastMeshExtractor.calculateBreastVolumes ld rd lp rp none =
      { leftVolume := ((round ((4 / 3) * Real.pi * (ld / 2) ^ 2 * lp) : ℤ) : ℝ)
        rightVolume := ((round ((4 / 3) * Real.pi * (rd / 2) ^ 2 * rp) : ℤ) : ℝ)
        totalVolume := ((round ((4 / 3) * Real.pi * (ld / 2) ^ 2 * lp +
          (4 / 3) * Real.pi * (rd / 2) ^ 2 * rp) : ℤ) : ℝ)
        asymmetryRatio := ((round ((|(4 / 3) * Real.pi * (ld / 2) ^ 2 * lp -
          (4 / 3) * Real.pi * (rd / 2) ^ 2 * rp| /
          max ((4 / 3) * Real.pi * (ld / 2) ^ 2 * lp)
            ((4 / 3) * Real.pi * (rd / 2) ^ 2 * rp) * 100) * 10) : ℤ) : ℝ) / 10 } := by
  rw [BreastMeshExtractor.calculateBreastVolumes]
  have el : (4 / 3) * Real.pi * (ld / 2) * (ld / 2) * lp =
      (4 / 3) * Real.pi * (ld / 2) ^ 2 * lp := by ring
  have er : (4 / 3) * Real.pi * (rd / 2) * (rd / 2) * rp =
      (4 / 3) * Real.pi * (rd / 2) ^ 2 * rp := by ring
  simp only [el, er]

/-- Witness for C2 at diameters 2 and 0 and projections 3 and 0, whose
left per-side volume 4 pi is nonzero. -/
theorem C2_witness :
    BreastMeshExtractor.calculateBreastVolumes 2 0 3 0 none =
      { leftVolume := ((round ((4 / 3) * Real.pi * ((2 : ℝ) / 2) ^ 2 * 3) : ℤ) : ℝ)
        rightVolume := ((round ((4 / 3) * Real.pi * ((0 : ℝ) / 2) ^ 2 * 0) : ℤ) : ℝ)
        totalVolume := ((round ((4 / 3) * Real.pi * ((2 : ℝ) / 2) ^ 2 * 3 +
          (4 / 3) * Real.pi * ((0 : ℝ) / 2) ^ 2 * 0) : ℤ) : ℝ)
        asymmetryRatio := ((round ((|(4 / 3) * Real.pi * ((2 : ℝ) / 2) ^ 2 * 3 -
          (4 / 3) * Real.pi * ((0 : ℝ) / 2) ^ 2 * 0| /
          max ((4 / 3) * Real.pi * ((2 : ℝ) / 2) ^ 2 * 3)
            ((4 / 3) * Real.pi * ((0 : ℝ) / 2) ^ 2 * 0) * 100) * 10) : ℤ) : ℝ) / 10 } :=
  C2_closed_form_volumes 2 0 3 0 (Or.inl (by positivity))

/-- C7: with nonnegative measurements, fullness parameters and projection
multiplier, the augmented per-side volume reported by the
augmentation-results calculation is non-decreasing in the size
multiplier. -/
theorem C7_volume_monotone (m : CalculatedMeasurements)
    (params : BreastAugmentationSimulator.AugmentationParameters) (side : Side) (s1 s2 : ℝ)
    (hdiam : 0 ≤ (match side with
      | Side.left => m.leftBreastDiameter
      | Side.right => m.rightBreastDiameter))
    (hproj : 0 ≤ (match side with
      | Side.left => m.projectionLeft
      | Side.right => m.projectionRight))
    (hu : 0 ≤ params.upperPoleFullness) (hl : 0 ≤ params.lowerPoleFullness)
    (hpm : 0 ≤ params.projectionMultiplier)
    (h0 : 0 ≤ s1) (h12 : s1 ≤ s2) :
    (BreastAugmentationSimulator.calculateAugmentationResults m
        { params with sizeMultiplier := s1 } side).augmentedVolume ≤
      (BreastAugmentationSimulator.calculateAugmentationResults m
        { params with sizeMultiplier := s2 } side).augmentedVolume := by
  have key : ∀ d p : ℝ, 0 ≤ p →
      (4 / 3) * Real.pi * (d / 2 * s1) * (d / 2 * s1) * (p * params.projectionMultiplier) *
        ((params.upperPoleFullness + params.lowerPoleFullness) / 2) ≤
      (4 / 3) * Real.pi * (d / 2 * s2) * (d / 2 * s2) * (p * params.projectionMultiplier) *
        ((params.upperPoleFullness + params.lowerPoleFullness) / 2) := by
    intro d p hp
    have hs : s1 * s1 ≤ s2 * s2 := mul_self_le_mul_self h0 h12
    have hpi : (0 : ℝ) < Real.pi := Real.pi_pos
    nlinarith [sq_nonneg d, sq_nonneg (d / 2),
      mul_nonneg (mul_nonneg hp hpm) (mul_nonneg (add_nonneg hu hl) (sq_nonneg (d / 2))),
      mul_le_mul_of_nonneg_left hs (le_of_lt hpi)]
  cases side with
  | left =>
    show ((round _ : ℤ) : ℝ) ≤ ((round _ : ℤ) : ℝ)
    rw [Int.cast_le]
    rw [round_eq, round_eq]
    exact Int.floor_le_floor (by
      have := key m.leftBreastDiameter m.projectionLeft hproj
      linarith)
  | right =>
    show ((round _ : ℤ) : ℝ) ≤ ((round _ : ℤ) : ℝ)
    rw [Int.cast_le]
    rw [round_eq, round_eq]
    exact Int.floor_le_floor (by
      have := key m.rightBreastDiameter m.projectionRight hproj
      linarith)

/-- An open polyline length is nonnegative. -/
theorem pathLength_nonneg (v : Vec3) (l : List Vec3) :
    0 ≤ ManualMeasurementCalculator.pathLength v l := by
  induction l generalizing v with
  | nil => exact le_refl 0
  | cons w rest ih =>
    exact add_nonneg (Vec3.distanceTo_nonneg v w) (ih w)

/-- Chained triangle inequality: the start of an open polyline is within
the polyline length of every node of the polyline. -/
theorem dist_start_le_pathLength (l : List Vec3) (v w : Vec3) (hw : w = v ∨ w ∈ l) :
    v.distanceTo w ≤ ManualMeasurementCalculator.pathLength v l := by
  induction l generalizing v with
  | nil =>
    rcases hw with hw | hw
    · subst hw
      rw [Vec3.distanceTo_self]
      exact le_refl 0
    · simp at hw
  | cons y rest ih =>
    rw [ManualMeasurementCalculator.pathLength]
    rcases hw with hw | hw
    · subst hw
      rw [Vec3.distanceTo_self]
      exact add_nonneg (Vec3.distanceTo_nonneg w y) (pathLength_nonneg y rest)
    · have hw' : w = y ∨ w ∈ rest := by
        rcases List.mem_cons.mp hw with h | h
        · exact Or.inl h
        · exact Or.inr h
      calc v.distanceTo w ≤ v.distanceTo y + y.distanceTo w := Vec3.distanceTo_triangle v y w
        _ ≤ v.distanceTo y + ManualMeasurementCalculator.pathLength y rest := by
            exact add_le_add_left (ih y hw') _

/-- Any two nodes of an open polyline are within the polyline length of
each other. -/
theorem dist_nodes_le_pathLength (l : List Vec3) (v u w : Vec3)
    (hu : u = v ∨ u ∈ l) (hw : w = v ∨ w ∈ l) :
    u.distanceTo w ≤ ManualMeasurementCalculator.pathLength v l := by
  induction l generalizing v with
  | nil =>
    rcases hu with hu | hu
    · rcases hw with hw | hw
      · subst hu
        subst hw
        rw [Vec3.distanceTo_self]
        exact le_refl 0
      · simp at hw
    · simp at hu
  | cons y rest ih =>
    rcases hu with hu | hu
    · subst hu
      exact dist_start_le_pathLength (y :: rest) u w hw
    · rcases hw with hw | hw
      · subst hw
        rw [Vec3.distanceTo_comm]
        exact dist_start_le_pathLength (y :: rest) w u (Or.inr hu)
      · have hu' : u = y ∨ u ∈ rest := by
          rcases List.mem_cons.mp hu with h | h
          · exact Or.inl h
          · exact Or.inr h
        have hw' : w = y ∨ w ∈ rest := by
          rcases List.mem_cons.mp hw with h | h
          · exact Or.inl h
          · exact Or.inr h
        rw [ManualMeasurementCalculator.pathLength]
        calc u.distanceTo w ≤ ManualMeasurementCalculator.pathLength y rest := ih y hu' hw'
          _ ≤ v.distanceTo y + ManualMeasurementCalculator.pathLength y rest := by
              have := Vec3.distanceTo_nonneg v y
              linarith

/-- The running maximum over distances from a fixed point is bounded by
any bound of the individual distances. -/
theorem maxDistFrom_le (v : Vec3) (l : List Vec3) (P : ℝ) (h0 : 0 ≤ P)
    (h : ∀ w ∈ l, v.distanceTo w ≤ P) :
    ManualMeasurementCalculator.maxDistFrom v l ≤ P := by
  induction l with
  | nil => exact h0
  | cons w rest ih =>
    rw [ManualMeasurementCalculator.maxDistFrom]
    exact max_le (h w (List.mem_cons_self w rest))
      (ih fun u hu => h u (List.mem_cons_of_mem w hu))

/-- The running maximum over pairwise distances is bounded by any bound of
the individual pairwise distances. -/
theorem maxPairwiseDist_le (l : List Vec3) (P : ℝ) (h0 : 0 ≤ P)
    (h : ∀ u ∈ l, ∀ w ∈ l, u.distanceTo w ≤ P) :
    ManualMeasurementCalculator.maxPairwiseDist l ≤ P := by
  induction l with
  | nil => exact h0
  | cons v rest ih =>
    rw [ManualMeasurementCalculator.maxPairwiseDist]
    refine max_le ?_ (ih fun u hu w hw =>
      h u (List.mem_cons_of_mem v hu) w (List.mem_cons_of_mem v hw))
    exact maxDistFrom_le v rest P h0 fun w hw =>
      h v (List.mem_cons_self v rest) w (List.mem_cons_of_mem v hw)

/-- C6: a contour with at least 3 vertices has a nonnegative computed
circumference, and its computed diameter (maximum pairwise vertex
distance) never exceeds the computed circumference (closed polygon
perimeter), both carrying the same centimetre scale factor. -/
theorem C6_diameter_le_circumference (contour : BreastContour)
    (h : 3 ≤ contour.vertices.length) :
    0 ≤ ManualMeasurementCalculator.calculateBreastCircumference contour ∧
      ManualMeasurementCalculator.calculateBreastDiameter contour ≤
        ManualMeasurementCalculator.calculateBreastCircumference contour := by
  have hnlt : ¬contour.vertices.length < 3 := not_lt.mpr h
  rw [ManualMeasurementCalculator.calculateBreastCircumference,
    ManualMeasurementCalculator.calculateBreastDiameter, if_neg hnlt, if_neg hnlt]
  obtain ⟨v, rest, hvr⟩ : ∃ v rest, contour.vertices = v :: rest := by
    cases hv : contour.vertices with
    | nil => rw [hv] at h; simp at h
    | cons a t => exact ⟨a, t, rfl⟩
  rw [hvr]
  have hper : 0 ≤ ManualMeasurementCalculator.pathLength v (rest ++ [v]) :=
    pathLength_nonneg v (rest ++ [v])
  constructor
  · positivity
  · have hmax : ManualMeasurementCalculator.maxPairwiseDist (v :: rest) ≤
        ManualMeasurementCalculator.pathLength v (rest ++ [v]) := by
      refine maxPairwiseDist_le (v :: rest) _ hper fun u hu w hw => ?_
      have hu' : u = v ∨ u ∈ rest ++ [v] := by
        rcases List.mem_cons.mp hu with h' | h'
        · exact Or.inl h'
        · exact Or.inr (List.mem_append_left [v] h')
      have hw' : w = v ∨ w ∈ rest ++ [v] := by
        rcases List.mem_cons.mp hw with h' | h'
        · exact Or.inl h'
        · exact Or.inr (List.mem_append_left [v] h')
      exact dist_nodes_le_pathLength (rest ++ [v]) v u w hu' hw'
    nlinarith

/-- Witness for C6 at a concrete right-triangle contour. -/
theorem C6_witness :
    0 ≤ ManualMeasurementCalculator.calculateBreastCircumference
        ⟨Side.left, [⟨0, 0, 0⟩, ⟨1, 0, 0⟩, ⟨0, 1, 0⟩], ⟨0, 0, 0⟩, 1⟩ ∧
      ManualMeasurementCalculator.calculateBreastDiameter
          ⟨Side.left, [⟨0, 0, 0⟩, ⟨1, 0, 0⟩, ⟨0, 1, 0⟩], ⟨0, 0, 0⟩, 1⟩ ≤
        ManualMeasurementCalculator.calculateBreastCircumference
          ⟨Side.left, [⟨0, 0, 0⟩, ⟨1, 0, 0⟩, ⟨0, 1, 0⟩], ⟨0, 0, 0⟩, 1⟩ :=
  C6_diameter_le_circumference ⟨Side.left, [⟨0, 0, 0⟩, ⟨1, 0, 0⟩, ⟨0, 1, 0⟩], ⟨0, 0, 0⟩, 1⟩
    (by norm_num)

/-- The dot product of a vector with itself is nonnegative. -/
theorem Vec3.dot_self_nonneg (v : Vec3) : 0 ≤ v.dot v := by
  rw [Vec3.dot]
  nlinarith [sq_nonneg v.x, sq_nonneg v.y, sq_nonneg v.z]

/-- Vector lengths are nonnegative. -/
theorem Vec3.length_nonneg (v : Vec3) : 0 ≤ v.length := Real.sqrt_nonneg _

/-- The squared length is the dot product with itself. -/
theorem Vec3.sq_length (v : Vec3) : v.length ^ 2 = v.dot v :=
  Real.sq_sqrt (Vec3.dot_self_nonneg v)

/-- Length of a scalar multiple. -/
theorem Vec3.length_smul (c : ℝ) (v : Vec3) : (Vec3.smul c v).length = |c| * v.length := by
  rw [Vec3.length, Vec3.length]
  have h : (Vec3.smul c v).dot (Vec3.smul c v) = c ^ 2 * v.dot v := by
    simp only [Vec3.smul, Vec3.dot]
    ring
  rw [h, Real.sqrt_mul (sq_nonneg c), Real.sqrt_sq_eq_abs]

/-- Adding a vector and subtracting the base point recovers the vector. -/
theorem Vec3.add_sub_cancel_left (v u : Vec3) : (v.add u).sub v = u := by
  obtain ⟨a, b, c⟩ := u
  simp only [Vec3.add, Vec3.sub, Vec3.mk.injEq]
  exact ⟨by ring, by ring, by ring⟩

/-- Subtracting a vector from itself gives the zero vector. -/
theorem Vec3.sub_self_vec (v : Vec3) : v.sub v = ⟨0, 0, 0⟩ := by
  simp only [Vec3.sub, Vec3.mk.injEq]
  exact ⟨by ring, by ring, by ring⟩

/-- The zero vector has length 0. -/
theorem Vec3.zero_length : (Vec3.mk 0 0 0).length = 0 := by
  simp only [Vec3.length, Vec3.dot]
  rw [show (0 : ℝ) * 0 + 0 * 0 + 0 * 0 = 0 by ring, Real.sqrt_zero]

/-- Length of a vector on the z axis. -/
theorem Vec3.length_zAxis (c : ℝ) : (Vec3.mk 0 0 c).length = |c| := by
  simp only [Vec3.length, Vec3.dot]
  rw [show (0 : ℝ) * 0 + 0 * 0 + c * c = c * c by ring, Real.sqrt_mul_self_eq_abs]

/-- Length of a vector on the y axis. -/
theorem Vec3.length_yAxis (a : ℝ) : (Vec3.mk 0 a 0).length = |a| := by
  simp only [Vec3.length, Vec3.dot]
  rw [show (0 : ℝ) * 0 + a * a + 0 * 0 = a * a by ring, Real.sqrt_mul_self_eq_abs]

/-- Scaling by 1 is the identity. -/
theorem Vec3.smul_one_vec (v : Vec3) : Vec3.smul 1 v = v := by
  obtain ⟨a, b, c⟩ := v
  simp only [Vec3.smul, Vec3.mk.injEq]
  exact ⟨by ring, by ring, by ring⟩

/-- A vector whose squared dot product is below a square has length below
the root. -/
theorem Vec3.length_le_of_dot_le (u : Vec3) (P : ℝ) (hP : 0 ≤ P) (h : u.dot u ≤ P ^ 2) :
    u.length ≤ P := by
  rw [Vec3.length]
  calc Real.sqrt (u.dot u) ≤ Real.sqrt (P ^ 2) := Real.sqrt_le_sqrt h
    _ = P := Real.sqrt_sq hP

/-- The normalized form of a nonzero vector has unit sum of squared
components. -/
theorem Vec3.normalize_sumsq (v : Vec3) (h : v.length ≠ 0) :
    v.normalize.x ^ 2 + v.normalize.y ^ 2 + v.normalize.z ^ 2 = 1 := by
  rw [Vec3.normalize, if_neg h]
  simp only [Vec3.smul]
  have hd : v.dot v ≠ 0 := fun h0 => h (by rw [Vec3.length, h0, Real.sqrt_zero])
  have hl : v.length ^ 2 = v.dot v := Vec3.sq_length v
  have expand : (1 / v.length * v.x) ^ 2 + (1 / v.length * v.y) ^ 2 + (1 / v.length * v.z) ^ 2
      = v.dot v / v.length ^ 2 := by
    rw [Vec3.dot]
    field_simp
    ring
  rw [expand, hl, div_self hd]

/-- The influence factor of the deformation falloff never exceeds 1 inside
the influence radius. -/
theorem influenceFactor_le_one (d R : ℝ) (h0 : 0 ≤ d) (hR : d < R) : (1 - d / R) ^ 2 ≤ 1 := by
  have hRpos : 0 < R := lt_of_le_of_lt h0 hR
  have h1 : 0 ≤ d / R := div_nonneg h0 hRpos.le
  have h2 : d / R < 1 := (div_lt_one hRpos).mpr hR
  nlinarith

/-- The deformation vector is homogeneous in the influence factor: the
displacement is the influence-1 displacement scaled by the factor. -/
theorem calculateDeformationVector_homogeneous (v n : Vec3)
    (dims : MeshManipulator.ImplantDimensions) (p : MeshManipulator.AugmentationParameters)
    (f : ℝ) :
    MeshManipulator.calculateDeformationVector v n dims p f =
      Vec3.smul f (MeshManipulator.calculateDeformationVector v n dims p 1) := by
  simp only [MeshManipulator.calculateDeformationVector]
  by_cases hd : (n.sub v).length = 0
  · rw [if_pos hd, if_pos hd]
    simp only [Vec3.smul, Vec3.mk.injEq]
    exact ⟨by ring, by ring, by ring⟩
  · rw [if_neg hd, if_neg hd]
    cases hT : p.implantType with
    | round =>
      simp only [Vec3.add, Vec3.smul, Vec3.mk.injEq]
      exact ⟨by ring, by ring, by ring⟩
    | teardrop =>
      simp only [Vec3.add, Vec3.smul, Vec3.mk.injEq]
      exact ⟨by ring, by ring, by ring⟩

/-- For round implants with pipeline-shaped dimensions the influence-1
deformation vector has length at most the implant projection. -/
theorem calculateDeformationVector_round_length_le (v n : Vec3)
    (dims : MeshManipulator.ImplantDimensions) (p : MeshManipulator.AugmentationParameters)
    (ht : p.implantType = MeshManipulator.ImplantType.round)
    (hw : 0 ≤ dims.width) (hp : 0 ≤ dims.projection) (hwp : dims.width ≤ 2 * dims.projection) :
    (MeshManipulator.calculateDeformationVector v n dims p 1).length ≤ dims.projection := by
  simp only [MeshManipulator.calculateDeformationVector, ht]
  by_cases hd : (n.sub v).length = 0
  · rw [if_pos hd, mul_one, Vec3.length_zAxis, abs_of_nonneg hp]
  · rw [if_neg hd]
    have hsum : (n.sub v).normalize.x ^ 2 + (n.sub v).normalize.y ^ 2 +
        (n.sub v).normalize.z ^ 2 = 1 := Vec3.normalize_sumsq _ hd
    have hxy : (n.sub v).normalize.x ^ 2 + (n.sub v).normalize.y ^ 2 ≤ 1 := by
      nlinarith [sq_nonneg (n.sub v).normalize.z]
    have hw2 : dims.width ^ 2 ≤ 4 * dims.projection ^ 2 := by nlinarith
    refine Vec3.length_le_of_dot_le _ _ hp ?_
    simp only [Vec3.add, Vec3.dot]
    nlinarith [sq_nonneg (n.sub v).normalize.x, sq_nonneg (n.sub v).normalize.y,
      sq_nonneg dims.width, sq_nonneg dims.projection,
      mul_nonneg (sq_nonneg dims.width) (sq_nonneg (n.sub v).normalize.x),
      mul_nonneg (sq_nonneg dims.width) (sq_nonneg (n.sub v).normalize.y),
      mul_le_mul_of_nonneg_left hxy (sq_nonneg dims.width)]

/-- Outside (or exactly at) the influence radius deformVertex leaves the
vertex unchanged. -/
theorem deformVertex_of_far (nipple v : Vec3) (dims : MeshManipulator.ImplantDimensions)
    (p : MeshManipulator.AugmentationParameters)
    (h : MeshManipulator.influenceRadius dims ≤ v.distanceTo nipple) :
    MeshManipulator.deformVertex nipple dims p v = v := by
  simp only [MeshManipulator.deformVertex]
  rw [if_neg (not_lt.mpr h)]

/-- Strictly inside the influence radius deformVertex adds the falloff
scaled influence-1 deformation vector. -/
theorem deformVertex_of_near (nipple v : Vec3) (dims : MeshManipulator.ImplantDimensions)
    (p : MeshManipulator.AugmentationParameters)
    (h : v.distanceTo nipple < MeshManipulator.influenceRadius dims) :
    MeshManipulator.deformVertex nipple dims p v =
      v.add (Vec3.smul ((1 - v.distanceTo nipple / MeshManipulator.influenceRadius dims) ^ 2)
        (MeshManipulator.calculateDeformationVector v nipple dims p 1)) := by
  simp only [MeshManipulator.deformVertex]
  rw [if_pos h, calculateDeformationVector_homogeneous]

/-- C3 (amended): a vertex at or beyond the influence radius is left
unchanged, a vertex strictly inside has its displacement scaled by the
falloff weight `(1 - distance/influenceRadius)^2`, and for a round
implant (with dimensions from the cc-to-size conversion) the vertex at
distance 0 receives the largest displacement magnitude; for teardrop
implants the distance-0 vertex need not be maximal (see the
counterexample). -/
theorem C3_falloff_amended (dims : MeshManipulator.ImplantDimensions)
    (p : MeshManipulator.AugmentationParameters) (nipple v : Vec3) :
    (MeshManipulator.influenceRadius dims ≤ v.distanceTo nipple →
      MeshManipulator.deformVertex nipple dims p v = v) ∧
    (v.distanceTo nipple < MeshManipulator.influenceRadius dims →
      MeshManipulator.deformVertex nipple dims p v =
        v.add (Vec3.smul ((1 - v.distanceTo nipple / MeshManipulator.influenceRadius dims) ^ 2)
          (MeshManipulator.calculateDeformationVector v nipple dims p 1))) ∧
    (∀ sizeCC : ℝ, 0 ≤ sizeCC → p.implantType = MeshManipulator.ImplantType.round →
      ((MeshManipulator.deformVertex nipple
          (MeshManipulator.calculateImplantDimensions sizeCC) p v).sub v).length ≤
        ((MeshManipulator.deformVertex nipple
          (MeshManipulator.calculateImplantDimensions sizeCC) p nipple).sub nipple).length) := by
  refine ⟨deformVertex_of_far nipple v dims p, deformVertex_of_near nipple v dims p, ?_⟩
  intro sizeCC hs ht
  set dimsC := MeshManipulator.calculateImplantDimensions sizeCC with hdims
  have hb : 0 ≤ (sizeCC / 523.6) ^ ((1 : ℝ) / 3) := Real.rpow_nonneg (by positivity) _
  have hwidth : dimsC.width = (sizeCC / 523.6) ^ ((1 : ℝ) / 3) * 0.8 := rfl
  have hproj : dimsC.projection = (sizeCC / 523.6) ^ ((1 : ℝ) / 3) * 0.6 := rfl
  have hw : 0 ≤ dimsC.width := by
    rw [hwidth]
    nlinarith
  have hp2 : 0 ≤ dimsC.projection := by
    rw [hproj]
    nlinarith
  have hwp : dimsC.width ≤ 2 * dimsC.projection := by
    rw [hwidth, hproj]
    nlinarith
  by_cases hnear : v.distanceTo nipple < MeshManipulator.influenceRadius dimsC
  · have hRpos : 0 < MeshManipulator.influenceRadius dimsC :=
      lt_of_le_of_lt (Vec3.distanceTo_nonneg v nipple) hnear
    have hnn : nipple.distanceTo nipple < MeshManipulator.influenceRadius dimsC := by
      rw [Vec3.distanceTo_self]
      exact hRpos
    have hzero : (nipple.sub nipple).length = 0 := by
      rw [Vec3.sub_self_vec, Vec3.zero_length]
    have hcdvn : MeshManipulator.calculateDeformationVector nipple nipple dimsC p 1 =
        ⟨0, 0, dimsC.projection * 1⟩ := by
      simp only [MeshManipulator.calculateDeformationVector]
      rw [if_pos hzero]
    have hRHS : (MeshManipulator.deformVertex nipple dimsC p nipple).sub nipple =
        ⟨0, 0, dimsC.projection * 1⟩ := by
      rw [deformVertex_of_near nipple nipple dimsC p hnn, Vec3.add_sub_cancel_left,
        Vec3.distanceTo_self, zero_div, sub_zero, one_pow, Vec3.smul_one_vec, hcdvn]
    rw [hRHS, mul_one, Vec3.length_zAxis, abs_of_nonneg hp2]
    rw [deformVertex_of_near nipple v dimsC p hnear, Vec3.add_sub_cancel_left, Vec3.length_smul,
      abs_of_nonneg (sq_nonneg _)]
    calc (1 - v.distanceTo nipple / MeshManipulator.influenceRadius dimsC) ^ 2 *
          (MeshManipulator.calculateDeformationVector v nipple dimsC p 1).length
        ≤ 1 * dimsC.projection :=
          mul_le_mul (influenceFactor_le_one _ _ (Vec3.distanceTo_nonneg v nipple) hnear)
            (calculateDeformationVector_round_length_le v nipple dimsC p ht hw hp2 hwp)
            (Vec3.length_nonneg _) zero_le_one
      _ = dimsC.projection := one_mul _
  · rw [deformVertex_of_far nipple v dimsC p (not_lt.mp hnear), Vec3.sub_self_vec,
      Vec3.zero_length]
    exact Vec3.length_nonneg _

/-- C3 counterexample: with a teardrop implant the vertex at distance 0
from the landmark does not receive the maximal displacement magnitude; a
vertex slightly above the landmark is displaced strictly further. -/
theorem C3_counterexample :
    ((MeshManipulator.deformVertex ⟨0, 0, 0⟩ ⟨0.8, 0.9, 0.6⟩
        ⟨400, MeshManipulator.ImplantType.teardrop, MeshManipulator.ProjectionLevel.moderate,
         MeshManipulator.PlacementLevel.subglandular⟩ ⟨0, 0, 0⟩).sub ⟨0, 0, 0⟩).length <
      ((MeshManipulator.deformVertex ⟨0, 0, 0⟩ ⟨0.8, 0.9, 0.6⟩
        ⟨400, MeshManipulator.ImplantType.teardrop, MeshManipulator.ProjectionLevel.moderate,
         MeshManipulator.PlacementLevel.subglandular⟩ ⟨0, 0.0108, 0⟩).sub ⟨0, 0.0108, 0⟩).length := by
  have hR : MeshManipulator.influenceRadius ⟨0.8, 0.9, 0.6⟩ = 1.08 := by
    simp only [MeshManipulator.influenceRadius]
    rw [max_eq_right (by norm_num : (0.8 : ℝ) ≤ 0.9)]
    norm_num
  have hzero : ((⟨0, 0, 0⟩ : Vec3).sub ⟨0, 0, 0⟩).length = 0 := by
    rw [Vec3.sub_self_vec, Vec3.zero_length]
  have hcdv0 : MeshManipulator.calculateDeformationVector ⟨0, 0, 0⟩ ⟨0, 0, 0⟩ ⟨0.8, 0.9, 0.6⟩
      ⟨400, MeshManipulator.ImplantType.teardrop, MeshManipulator.ProjectionLevel.moderate,
       MeshManipulator.PlacementLevel.subglandular⟩ 1 = ⟨0, 0, 0.6 * 1⟩ := by
    simp only [MeshManipulator.calculateDeformationVector]
    rw [if_pos hzero]
  have hlhs : (MeshManipulator.deformVertex ⟨0, 0, 0⟩ ⟨0.8, 0.9, 0.6⟩
      ⟨400, MeshManipulator.ImplantType.teardrop, MeshManipulator.ProjectionLevel.moderate,
       MeshManipulator.PlacementLevel.subglandular⟩ ⟨0, 0, 0⟩).sub ⟨0, 0, 0⟩ = ⟨0, 0, 0.6 * 1⟩ := by
    rw [deformVertex_of_near _ _ _ _ (by rw [Vec3.distanceTo_self, hR]; norm_num),
      Vec3.add_sub_cancel_left, Vec3.distanceTo_self, zero_div, sub_zero, one_pow,
      Vec3.smul_one_vec, hcdv0]
  have hsub2 : (Vec3.mk 0 0 0).sub ⟨0, 0.0108, 0⟩ = ⟨0, -0.0108, 0⟩ := by
    simp only [Vec3.sub, Vec3.mk.injEq]
    norm_num
  have hlen2 : (Vec3.mk 0 (-0.0108) 0).length = 0.0108 := by
    rw [Vec3.length_yAxis, abs_of_nonpos (by norm_num)]
    norm_num
  have hd : (Vec3.mk 0 0.0108 0).distanceTo ⟨0, 0, 0⟩ = 0.0108 := by
    rw [Vec3.distanceTo, show (Vec3.mk 0 0.0108 0).sub ⟨0, 0, 0⟩ = ⟨0, 0.0108, 0⟩ from by
      simp only [Vec3.sub, Vec3.mk.injEq]
      norm_num, Vec3.length_yAxis, abs_of_nonneg (by norm_num)]
  have hnorm : (Vec3.mk 0 (-0.0108) 0).normalize = ⟨0, -1, 0⟩ := by
    rw [Vec3.normalize, if_neg (by rw [hlen2]; norm_num), hlen2]
    simp only [Vec3.smul, Vec3.mk.injEq]
    norm_num
  have hcdv1 : MeshManipulator.calculateDeformationVector ⟨0, 0.0108, 0⟩ ⟨0, 0, 0⟩
      ⟨0.8, 0.9, 0.6⟩
      ⟨400, MeshManipulator.ImplantType.teardrop, MeshManipulator.ProjectionLevel.moderate,
       MeshManipulator.PlacementLevel.subglandular⟩ 1 = ⟨0, 0.2, 0.6⟩ := by
    simp only [MeshManipulator.calculateDeformationVector]
    rw [hsub2, hlen2, if_neg (by norm_num), hnorm]
    simp only [Vec3.add, Vec3.mk.injEq]
    rw [show max (0 : ℝ) (- -1) = 1 from by rw [max_eq_right] <;> norm_num]
    norm_num
  have hlen3 : (Vec3.mk 0 0.2 0.6).length = Real.sqrt 0.4 := by
    simp only [Vec3.length, Vec3.dot]
    norm_num
  have hrhs : (MeshManipulator.deformVertex ⟨0, 0, 0⟩ ⟨0.8, 0.9, 0.6⟩
      ⟨400, MeshManipulator.ImplantType.teardrop, MeshManipulator.ProjectionLevel.moderate,
       MeshManipulator.PlacementLevel.subglandular⟩ ⟨0, 0.0108, 0⟩).sub ⟨0, 0.0108, 0⟩ =
      Vec3.smul ((1 - 0.0108 / 1.08) ^ 2) ⟨0, 0.2, 0.6⟩ := by
    rw [deformVertex_of_near _ _ _ _ (by rw [hd, hR]; norm_num), Vec3.add_sub_cancel_left,
      hd, hR, hcdv1]
  rw [hlhs, hrhs, Vec3.length_smul, hlen3, Vec3.length_zAxis,
    abs_of_nonneg (by norm_num : (0 : ℝ) ≤ 0.6 * 1), abs_of_nonneg (sq_nonneg _)]
  have hsq : ((0.6 : ℝ) / 0.9801) ^ 2 < 0.4 := by norm_num
  have hlt : (0.6 : ℝ) / 0.9801 < Real.sqrt 0.4 :=
    (Real.lt_sqrt (by norm_num)).mpr hsq
  have hstep : (0.6 : ℝ) < 0.9801 * Real.sqrt 0.4 := by
    have := (div_lt_iff₀ (by norm_num : (0 : ℝ) < 0.9801)).mp hlt
    linarith
  have heq : (1 - (0.0108 : ℝ) / 1.08) ^ 2 = 0.9801 := by norm_num
  rw [heq]
  linarith

/-- Witness for C3 (amended) at a vertex beyond the influence radius,
which is left unchanged. -/
theorem C3_witness :
    MeshManipulator.deformVertex ⟨0, 0, 0⟩ ⟨1, 1, 1⟩
        ⟨300, MeshManipulator.ImplantType.round, MeshManipulator.ProjectionLevel.moderate,
         MeshManipulator.PlacementLevel.subglandular⟩ ⟨0, 0, 2⟩ = ⟨0, 0, 2⟩ :=
  (C3_falloff_amended ⟨1, 1, 1⟩
      ⟨300, MeshManipulator.ImplantType.round, MeshManipulator.ProjectionLevel.moderate,
       MeshManipulator.PlacementLevel.subglandular⟩ ⟨0, 0, 0⟩ ⟨0, 0, 2⟩).1 (by
    have h2 : (Vec3.mk 0 0 2).distanceTo ⟨0, 0, 0⟩ = 2 := by
      rw [Vec3.distanceTo, show (Vec3.mk 0 0 2).sub ⟨0, 0, 0⟩ = ⟨0, 0, 2⟩ from by
        simp only [Vec3.sub, Vec3.mk.injEq]
        norm_num, Vec3.length_zAxis, abs_of_nonneg (by norm_num)]
    rw [h2]
    simp only [MeshManipulator.influenceRadius]
    rw [max_self]
    norm_num)

/-- Witness for C7 at the unit measurement record, neutral parameters and
size multipliers 1 and 2. -/
theorem C7_witness :
    (BreastAugmentationSimulator.calculateAugmentationResults ⟨1, 1, 1, 1, 1, 1, 1, 1⟩
        ⟨1, 1, 1, 1, 0, 0, BreastAugmentationSimulator.ImplantType.round,
         BreastAugmentationSimulator.ImplantProfile.moderate⟩ Side.left).augmentedVolume ≤
      (BreastAugmentationSimulator.calculateAugmentationResults ⟨1, 1, 1, 1, 1, 1, 1, 1⟩
        ⟨2, 1, 1, 1, 0, 0, BreastAugmentationSimulator.ImplantType.round,
         BreastAugmentationSimulator.ImplantProfile.moderate⟩ Side.left).augmentedVolume :=
  C7_volume_monotone ⟨1, 1, 1, 1, 1, 1, 1, 1⟩
    ⟨1, 1, 1, 1, 0, 0, BreastAugmentationSimulator.ImplantType.round,
     BreastAugmentationSimulator.ImplantProfile.moderate⟩ Side.left 1 2
    (by norm_num) (by norm_num) (by norm_num) (by norm_num) (by norm_num) (by norm_num)
    (by norm_num)

end
